import Mathlib

/-!
Shallow embedding of the execution core of the FuturIDE repository
(`src/app.py` and `src/futuride_desktop.py`).

Python strings are modelled as `List Char`.  The effectful parts
(temporary-file creation, `subprocess.run`, `os.unlink`) are modelled by
an explicit oracle describing the outcome of each OS interaction, and
each embedded function additionally returns the list of observable OS
events it performs (file creation, process spawn with its argv and
timeout, kill-on-timeout, unlink), so that claims about "no process is
spawned" or "no temporary file remains" can be stated and proved.
-/

/-- Python `str.strip()` whitespace set restricted to its ASCII members
(space, tab, newline, carriage return, vertical tab, form feed). -/
def isPySpace (c : Char) : Bool :=
  c == ' ' || c == '\t' || c == '\n' || c == '\r' || c == '\x0b' || c == '\x0c'

/-- Python `code.strip()`: remove leading and trailing whitespace. -/
def strip (l : List Char) : List Char :=
  ((l.dropWhile isPySpace).reverse.dropWhile isPySpace).reverse

/-- Python `code.lower()` (ASCII case folding, as used on the denylist). -/
def pyLower (l : List Char) : List Char :=
  l.map Char.toLower

/-- Tests whether `p` is a leading segment of `s` (helper for substring
containment). -/
def leadsWith : List Char → List Char → Bool
  | [], _ => true
  | _ :: _, [] => false
  | a :: p, b :: s => a == b && leadsWith p s

/-- Python substring containment `p in s` (contiguous occurrence). -/
def hasSubstr : List Char → List Char → Bool
  | [], p => p.isEmpty
  | c :: t, p => leadsWith p (c :: t) || hasSubstr t p

/-- Configuration `MAX_CODE_LENGTH` from `app.py` (`Config`). -/
def MAX_CODE_LENGTH : Nat := 50000

/-- Configuration `EXECUTION_TIMEOUT` from `app.py` (`Config`), in seconds. -/
def EXECUTION_TIMEOUT : Nat := 10

/-- Message returned by `validate_code` for empty or all-whitespace code. -/
def emptyMsg : List Char := "Code cannot be empty".toList

/-- Message returned by `validate_code` for over-long code (the f-string
with `MAX_CODE_LENGTH = 50000` interpolated). -/
def tooLongMsg : List Char := "Code too long. Maximum 50000 characters allowed.".toList

/-- Message returned by `validate_code` when a denylisted pattern is found. -/
def dangerousMsg (p : List Char) : List Char :=
  ("Potentially dangerous code detected: ".toList) ++ p

/-- The fixed denylist `dangerous_patterns` of `validate_code` in `app.py`. -/
def dangerous_patterns : List (List Char) :=
  ["import os".toList, "import sys".toList, "import subprocess".toList,
   "eval(".toList, "exec(".toList, "__import__".toList, "globals()".toList,
   "locals()".toList, "open(".toList, "file(".toList, "system(".toList,
   "popen(".toList, "spawn(".toList, "fork(".toList, "kill(".toList]

/-- Embedding of `validate_code(code, language)` from `app.py`: empty check,
then length check, then the denylist scan in list order over the lowercased
code.  The `language` argument is accepted and ignored, as in the source. -/
def validate_code (code language : List Char) : Bool × Option (List Char) :=
  if code.isEmpty || (strip code).isEmpty then
    (false, some emptyMsg)
  else if code.length > MAX_CODE_LENGTH then
    (false, some tooLongMsg)
  else
    match dangerous_patterns.find? (fun p => hasSubstr (pyLower code) p) with
    | some p => (false, some (dangerousMsg p))
    | none => (true, none)

/-- Outcome of persisting code with `tempfile.NamedTemporaryFile(mode='w',
delete=False)` followed by `f.write(code)` and capturing `f.name`.  The file
is created when `NamedTemporaryFile` succeeds; if the subsequent `write`
raises, the file exists on disk but its name was never bound. -/
inductive TempFileResult where
  | ok (path : List Char)
  | createFailed (emsg : List Char)
  | writeFailed (path : List Char) (emsg : List Char)
deriving DecidableEq

/-- Outcome of one `subprocess.run` call: normal completion with return
code and captured text streams, `TimeoutExpired` (the library kills the
child before raising), `FileNotFoundError` (the executable is absent, no
child ran), or any other exception.  Each exception carries its `str(e)`. -/
inductive ProcResult where
  | completed (returncode : Int) (stdout : List Char) (stderr : List Char)
  | timedOut (emsg : List Char)
  | fileNotFound (emsg : List Char)
  | err (emsg : List Char)
deriving DecidableEq

/-- Observable OS events performed by an embedded function. -/
inductive Event where
  | fileCreated (path : List Char)
  | spawned (argv : List (List Char)) (timeout : Nat)
  | killed
  | unlink (path : List Char)
deriving DecidableEq

/-- Oracle for one `execute_python_code` invocation. -/
structure PyOracle where
  tmp : TempFileResult
  run : ProcResult
deriving DecidableEq

/-- Oracle for one `execute_c_code` invocation. -/
structure COracle where
  tmp : TempFileResult
  compile : ProcResult
  run : ProcResult
deriving DecidableEq

/-- Oracle pair handed to a dispatcher (it uses at most one side). -/
structure ExecOracle where
  py : PyOracle
  c : COracle
deriving DecidableEq

/-- Message of the `subprocess.TimeoutExpired` handlers in `app.py`. -/
def timeoutMsg : List Char := "Execution timed out".toList

/-- Message of the generic exception handlers in `app.py`. -/
def execErrorMsg (m : List Char) : List Char :=
  ("Execution error: ".toList) ++ m

/-- Message of the `FileNotFoundError` handler of `execute_c_code`. -/
def gccNotFoundMsg : List Char :=
  "GCC compiler not found. Please install GCC to run C code.".toList

/-- Argument vector of the interpreter invocation in `execute_python_code`. -/
def python_argv (path : List Char) : List (List Char) :=
  ["python".toList, path]

/-- Embedding of `execute_python_code(code)` from `app.py`.  Returns the
`(stdout, stderr)` pair and the trace of OS events.  The `finally` block
unlinks the scratch file only when `temp_file` was bound (`'temp_file' in
locals()`), i.e. only on the `TempFileResult.ok` outcome. -/
def execute_python_code (code : List Char) (o : PyOracle) :
    (Option (List Char) × Option (List Char)) × List Event :=
  match o.tmp with
  | .createFailed emsg => ((none, some (execErrorMsg emsg)), [])
  | .writeFailed path emsg => ((none, some (execErrorMsg emsg)), [.fileCreated path])
  | .ok path =>
    match o.run with
    | .completed _ out err =>
        ((some out, if err.isEmpty then none else some err),
         [.fileCreated path, .spawned (python_argv path) EXECUTION_TIMEOUT, .unlink path])
    | .timedOut _ =>
        ((none, some timeoutMsg),
         [.fileCreated path, .spawned (python_argv path) EXECUTION_TIMEOUT, .killed,
          .unlink path])
    | .fileNotFound emsg =>
        ((none, some (execErrorMsg emsg)),
         [.fileCreated path, .unlink path])
    | .err emsg =>
        ((none, some (execErrorMsg emsg)),
         [.fileCreated path, .spawned (python_argv path) EXECUTION_TIMEOUT, .unlink path])

/-- Scratch binary path `c_file[:-2]` computed by `execute_c_code`
(POSIX case: `os.name != 'nt'`, so no `.exe` suffix is appended). -/
def exe_path (cfile : List Char) : List Char :=
  cfile.take (cfile.length - 2)

/-- Argument vector of the compiler invocation in `execute_c_code`. -/
def gcc_argv (cfile exefile : List Char) : List (List Char) :=
  ["gcc".toList, cfile, "-o".toList, exefile, "-Wall".toList, "-Wextra".toList]

/-- Embedding of `execute_c_code(code)` from `app.py`.  The `finally` block
attempts `os.unlink` on `c_file` and `exe_file` in separate `try` blocks
(independently), for each of the two names that is bound; both are bound
exactly when the scratch source was persisted (`TempFileResult.ok`).  The
binary is created on disk only when compilation completes with return
code 0. -/
def execute_c_code (code : List Char) (o : COracle) :
    (Option (List Char) × Option (List Char)) × List Event :=
  match o.tmp with
  | .createFailed emsg => ((none, some (execErrorMsg emsg)), [])
  | .writeFailed path emsg => ((none, some (execErrorMsg emsg)), [.fileCreated path])
  | .ok cfile =>
    let exefile := exe_path cfile
    match o.compile with
    | .timedOut _ =>
        ((none, some timeoutMsg),
         [.fileCreated cfile, .spawned (gcc_argv cfile exefile) EXECUTION_TIMEOUT, .killed,
          .unlink cfile, .unlink exefile])
    | .fileNotFound _ =>
        ((none, some gccNotFoundMsg),
         [.fileCreated cfile, .unlink cfile, .unlink exefile])
    | .err emsg =>
        ((none, some (execErrorMsg emsg)),
         [.fileCreated cfile, .spawned (gcc_argv cfile exefile) EXECUTION_TIMEOUT,
          .unlink cfile, .unlink exefile])
    | .completed rc _ cerr =>
      if rc ≠ 0 then
        ((none, some cerr),
         [.fileCreated cfile, .spawned (gcc_argv cfile exefile) EXECUTION_TIMEOUT,
          .unlink cfile, .unlink exefile])
      else
        match o.run with
        | .completed _ out err =>
            ((some out, if err.isEmpty then none else some err),
             [.fileCreated cfile, .spawned (gcc_argv cfile exefile) EXECUTION_TIMEOUT,
              .fileCreated exefile, .spawned [exefile] EXECUTION_TIMEOUT,
              .unlink cfile, .unlink exefile])
        | .timedOut _ =>
            ((none, some timeoutMsg),
             [.fileCreated cfile, .spawned (gcc_argv cfile exefile) EXECUTION_TIMEOUT,
              .fileCreated exefile, .spawned [exefile] EXECUTION_TIMEOUT, .killed,
              .unlink cfile, .unlink exefile])
        | .fileNotFound _ =>
            ((none, some gccNotFoundMsg),
             [.fileCreated cfile, .spawned (gcc_argv cfile exefile) EXECUTION_TIMEOUT,
              .fileCreated exefile,
              .unlink cfile, .unlink exefile])
        | .err emsg =>
            ((none, some (execErrorMsg emsg)),
             [.fileCreated cfile, .spawned (gcc_argv cfile exefile) EXECUTION_TIMEOUT,
              .fileCreated exefile, .spawned [exefile] EXECUTION_TIMEOUT,
              .unlink cfile, .unlink exefile])

/-- Effect of one event on the set of scratch files currently on disk
(`unlink` removes the path when present and is a no-op otherwise). -/
def applyEvent (live : List (List Char)) : Event → List (List Char)
  | Event.fileCreated p => live ++ [p]
  | Event.unlink p => live.filter (fun q => q != p)
  | _ => live

/-- Scratch files still on disk after a trace of events. -/
def leftover (tr : List Event) : List (List Char) :=
  tr.foldl applyEvent []

/-- Informational text produced for `language == 'javascript'` by
`handle_code_execution` (the f-string echoing the code). -/
def jsEchoMsg (code : List Char) : List Char :=
  ("JavaScript code:\n".toList) ++ code ++
  ("\n\n(JavaScript execution in browser console)".toList)

/-- The f-string for an unsupported language tag. -/
def unsupportedMsg (language : List Char) : List Char :=
  ("Unsupported language: ".toList) ++ language

/-- The template variables of the `index.html` render produced by
`handle_code_execution`. -/
structure RenderPayload where
  output : Option (List Char)
  error : Option (List Char)
  html_preview : Option (List Char)
deriving DecidableEq

/-- Embedding of `handle_code_execution` from `app.py`, after the form
fields have been read into `code` and `language`: validate, short-circuit
on failure, then dispatch on the language tag. -/
def handle_code_execution (code language : List Char) (o : ExecOracle) :
    RenderPayload × List Event :=
  let v := validate_code code language
  if v.1 = false then
    ({output := none, error := v.2, html_preview := none}, [])
  else if language = ("python".toList) then
    let r := execute_python_code code o.py
    ({output := r.1.1, error := r.1.2, html_preview := none}, r.2)
  else if language = ("c".toList) then
    let r := execute_c_code code o.c
    ({output := r.1.1, error := r.1.2, html_preview := none}, r.2)
  else if language = ("html".toList) then
    ({output := none, error := none, html_preview := some code}, [])
  else if language = ("javascript".toList) then
    ({output := some (jsEchoMsg code), error := none, html_preview := none}, [])
  else
    ({output := none, error := some (unsupportedMsg language), html_preview := none}, [])

/-- JSON responses of the `/api/execute` endpoint: `errorResp` is a
`jsonify` error body with HTTP status 400, `htmlPreview` the html branch,
`execResult` the final body with `output`, `error` and `success`. -/
inductive ApiResponse where
  | errorResp (emsg : List Char)
  | htmlPreview (code : List Char)
  | execResult (output : Option (List Char)) (error : Option (List Char)) (success : Bool)
deriving DecidableEq

/-- Embedding of `api_execute` from `app.py`, after the JSON body has been
read into `code` and `language`.  Note the dispatch has branches only for
`python`, `c` and `html`; every other tag, including `javascript`, falls
into the `else` branch.  The `success` field is `error is None`. -/
def api_execute (code language : List Char) (o : ExecOracle) :
    ApiResponse × List Event :=
  let v := validate_code code language
  if v.1 = false then
    (.errorResp (v.2.getD []), [])
  else if language = ("python".toList) then
    let r := execute_python_code code o.py
    (.execResult r.1.1 r.1.2 r.1.2.isNone, r.2)
  else if language = ("c".toList) then
    let r := execute_c_code code o.c
    (.execResult r.1.1 r.1.2 r.1.2.isNone, r.2)
  else if language = ("html".toList) then
    (.htmlPreview code, [])
  else
    (.errorResp (unsupportedMsg language), [])

namespace FuturIDE

/-- Stand-in for `sys.executable` used by the desktop runner. -/
def sys_executable : List Char := "/usr/bin/python3".toList

/-- The hard-coded `timeout=5` of the desktop runners. -/
def desktop_timeout : Nat := 5

/-- Output-label texts of the desktop runners. -/
def outputLabel (out : List Char) : List Char :=
  ("<b>Output:</b>\n".toList) ++ out

/-- Error-label text of the desktop runners. -/
def errorLabel (err : List Char) : List Char :=
  ("<b>Error:</b>\n".toList) ++ err

/-- Exception-label text of the desktop runners. -/
def exceptionLabel (emsg : List Char) : List Char :=
  ("<b>Exception:</b> ".toList) ++ emsg

/-- Compile-error-label text of the desktop C runner. -/
def compileErrorLabel (cerr : List Char) : List Char :=
  ("<b>Compile Error:</b>\n".toList) ++ cerr

/-- Result of a desktop Run action: either the text placed into the output
label, a crash (an exception escaped the handler, e.g. the scratch-file
write raised before the `try` block was entered), or no change (no tab
branch matched in `run_code`). -/
inductive DesktopOutcome where
  | label (text : List Char)
  | crashed (emsg : List Char)
  | noChange
deriving DecidableEq

/-- Embedding of `FuturIDE.run_python` from `futuride_desktop.py`: persist
the code, then `subprocess.run([sys.executable, fname], timeout=5)` with a
single generic `except Exception` handler and an unconditional
`os.unlink(fname)` in `finally`.  The scratch-file `with` block precedes
the `try`, so a failure there escapes the method. -/
def run_python (code : List Char) (o : PyOracle) : DesktopOutcome × List Event :=
  match o.tmp with
  | .createFailed emsg => (.crashed emsg, [])
  | .writeFailed path emsg => (.crashed emsg, [.fileCreated path])
  | .ok fname =>
    match o.run with
    | .completed _ out err =>
        (.label (if err.isEmpty then outputLabel out else errorLabel err),
         [.fileCreated fname, .spawned [sys_executable, fname] desktop_timeout,
          .unlink fname])
    | .timedOut emsg =>
        (.label (exceptionLabel emsg),
         [.fileCreated fname, .spawned [sys_executable, fname] desktop_timeout, .killed,
          .unlink fname])
    | .fileNotFound emsg =>
        (.label (exceptionLabel emsg),
         [.fileCreated fname, .unlink fname])
    | .err emsg =>
        (.label (exceptionLabel emsg),
         [.fileCreated fname, .spawned [sys_executable, fname] desktop_timeout,
          .unlink fname])

/-- Argument vector of the desktop compiler invocation (no warning flags). -/
def desktop_gcc_argv (cfile exefile : List Char) : List (List Char) :=
  ["gcc".toList, cfile, "-o".toList, exefile]

/-- Embedding of `FuturIDE.run_c` from `futuride_desktop.py`: compile with
`timeout=5`, run the binary with `timeout=5` when compilation returned 0,
one generic `except Exception` handler, and existence-guarded unlinks of
source and binary in `finally`. -/
def run_c (code : List Char) (o : COracle) : DesktopOutcome × List Event :=
  match o.tmp with
  | .createFailed emsg => (.crashed emsg, [])
  | .writeFailed path emsg => (.crashed emsg, [.fileCreated path])
  | .ok cfile =>
    let exefile := exe_path cfile
    match o.compile with
    | .timedOut emsg =>
        (.label (exceptionLabel emsg),
         [.fileCreated cfile, .spawned (desktop_gcc_argv cfile exefile) desktop_timeout,
          .killed, .unlink cfile, .unlink exefile])
    | .fileNotFound emsg =>
        (.label (exceptionLabel emsg),
         [.fileCreated cfile, .unlink cfile, .unlink exefile])
    | .err emsg =>
        (.label (exceptionLabel emsg),
         [.fileCreated cfile, .spawned (desktop_gcc_argv cfile exefile) desktop_timeout,
          .unlink cfile, .unlink exefile])
    | .completed rc _ cerr =>
      if rc ≠ 0 then
        (.label (compileErrorLabel cerr),
         [.fileCreated cfile, .spawned (desktop_gcc_argv cfile exefile) desktop_timeout,
          .unlink cfile, .unlink exefile])
      else
        match o.run with
        | .completed _ out err =>
            (.label (if err.isEmpty then outputLabel out else errorLabel err),
             [.fileCreated cfile, .spawned (desktop_gcc_argv cfile exefile) desktop_timeout,
              .fileCreated exefile, .spawned [exefile] desktop_timeout,
              .unlink cfile, .unlink exefile])
        | .timedOut emsg =>
            (.label (exceptionLabel emsg),
             [.fileCreated cfile, .spawned (desktop_gcc_argv cfile exefile) desktop_timeout,
              .fileCreated exefile, .spawned [exefile] desktop_timeout, .killed,
              .unlink cfile, .unlink exefile])
        | .fileNotFound emsg =>
            (.label (exceptionLabel emsg),
             [.fileCreated cfile, .spawned (desktop_gcc_argv cfile exefile) desktop_timeout,
              .fileCreated exefile,
              .unlink cfile, .unlink exefile])
        | .err emsg =>
            (.label (exceptionLabel emsg),
             [.fileCreated cfile, .spawned (desktop_gcc_argv cfile exefile) desktop_timeout,
              .fileCreated exefile, .spawned [exefile] desktop_timeout,
              .unlink cfile, .unlink exefile])

/-- Embedding of `FuturIDE.run_code` from `futuride_desktop.py`: dispatch
on the current tab's title.  A tab title outside the three cases leaves
the output label unchanged (the method has no else branch). -/
def run_code (lang code : List Char) (o : ExecOracle) : DesktopOutcome × List Event :=
  if lang = ("Python".toList) then run_python code o.py
  else if lang = ("C".toList) then run_c code o.c
  else if lang = ("HTML".toList) then
    (.label ("HTML preview updated below.".toList), [])
  else (.noChange, [])

end FuturIDE

/-- A benign concrete oracle used by concrete-input theorems. -/
def oracle0 : ExecOracle :=
  { py := { tmp := .ok ("/tmp/t.py".toList), run := .completed 0 [] [] },
    c := { tmp := .ok ("/tmp/t.c".toList), compile := .completed 0 [] [],
           run := .completed 0 [] [] } }

/-- The stripped code is empty exactly when every character is whitespace
(this is the Python truthiness test `not code.strip()`). -/
theorem strip_isEmpty (l : List Char) : (strip l).isEmpty = l.all isPySpace := by
  rw [Bool.eq_iff_iff, List.isEmpty_iff, List.all_eq_true]
  unfold strip
  rw [List.reverse_eq_nil_iff, List.dropWhile_eq_nil_iff]
  constructor
  · intro h x hx
    have hsplit := List.takeWhile_append_dropWhile (p := isPySpace) (l := l)
    rw [← hsplit] at hx
    rcases List.mem_append.mp hx with h1 | h2
    · exact List.mem_takeWhile_imp h1
    · exact h x (List.mem_reverse.mpr h2)
  · intro h x hx
    exact h x ((List.dropWhile_sublist isPySpace).subset (List.mem_reverse.mp hx))

/-- Whitespace characters are fixed points of `Char.toLower`. -/
theorem space_toLower (c : Char) (h : isPySpace c = true) : Char.toLower c = c := by
  unfold isPySpace at h
  simp only [Bool.or_eq_true, beq_iff_eq] at h
  rcases h with ((((h | h) | h) | h) | h) | h <;> subst h <;> decide

/-- Lowercasing fixes an all-whitespace string. -/
theorem pyLower_of_all_space (l : List Char) :
    l.all isPySpace = true → pyLower l = l := by
  induction l with
  | nil => intro _; rfl
  | cons a t ih =>
    intro h
    rw [List.all_cons, Bool.and_eq_true] at h
    show Char.toLower a :: pyLower t = a :: t
    rw [space_toLower a h.1, ih h.2]

/-- Characters of a leading segment are characters of the string. -/
theorem leadsWith_subset (p s : List Char) (h : leadsWith p s = true) :
    ∀ c ∈ p, c ∈ s := by
  induction p generalizing s with
  | nil => intro c hc; exact absurd hc (List.not_mem_nil c)
  | cons a p' ih =>
    intro c hc
    cases s with
    | nil => exact absurd h (by simp [leadsWith])
    | cons b s' =>
      rw [leadsWith, Bool.and_eq_true] at h
      rcases List.mem_cons.mp hc with hc1 | hc2
      · rw [hc1, beq_iff_eq.mp h.1]; exact List.mem_cons_self b s'
      · exact List.mem_cons_of_mem b (ih s' h.2 c hc2)

/-- Characters of a contained substring are characters of the string. -/
theorem hasSubstr_subset (s p : List Char) (h : hasSubstr s p = true) :
    ∀ c ∈ p, c ∈ s := by
  induction s with
  | nil =>
    intro c hc
    rw [hasSubstr, List.isEmpty_iff] at h
    rw [h] at hc
    exact absurd hc (List.not_mem_nil c)
  | cons a t ih =>
    intro c hc
    rw [hasSubstr, Bool.or_eq_true] at h
    rcases h with h | h
    · exact leadsWith_subset p (a :: t) h c hc
    · exact List.mem_cons_of_mem a (ih h c hc)

/-- Every entry of the denylist contains a non-whitespace character. -/
theorem patterns_nonspace :
    ∀ p ∈ dangerous_patterns, (p.any (fun c => !isPySpace c)) = true := by decide

/-- The python runner never reports an empty-string error: every `stderr`
it returns is either absent or non-empty (`result.stderr if result.stderr
else None` normalizes the empty capture to `None`, and every handler
message is non-empty). -/
theorem py_err_ne_empty (code : List Char) (o : PyOracle) :
    (execute_python_code code o).1.2 ≠ some [] := by
  obtain ⟨tmp, run⟩ := o
  cases tmp with
  | createFailed em =>
    simp only [execute_python_code, execErrorMsg, ne_eq, Option.some.injEq]
    intro h
    have := congrArg List.length h
    simp at this
  | writeFailed p em =>
    simp only [execute_python_code, execErrorMsg, ne_eq, Option.some.injEq]
    intro h
    have := congrArg List.length h
    simp at this
  | ok p =>
    cases run with
    | completed rc out err =>
      simp only [execute_python_code]
      by_cases he : err.isEmpty
      · simp [he]
      · simp only [he, if_false, ne_eq, Option.some.injEq, Bool.false_eq_true]
        intro h
        rw [h] at he
        exact he rfl
    | timedOut em =>
      simp only [execute_python_code, timeoutMsg, ne_eq, Option.some.injEq]
      intro h
      have := congrArg List.length h
      simp at this
    | fileNotFound em =>
      simp only [execute_python_code, execErrorMsg, ne_eq, Option.some.injEq]
      intro h
      have := congrArg List.length h
      simp at this
    | err em =>
      simp only [execute_python_code, execErrorMsg, ne_eq, Option.some.injEq]
      intro h
      have := congrArg List.length h
      simp at this

/-- C1: for every execution request, validation runs first, and on
validation failure both dispatchers (the form handler and the JSON API
endpoint) return the validation error message and perform no execution:
the event trace is empty, so no child process is spawned and no scratch
file is created. -/
theorem dispatch_validation_short_circuit
    (code language : List Char) (o : ExecOracle) (msg : List Char)
    (hv : validate_code code language = (false, some msg)) :
    handle_code_execution code language o
      = ({output := none, error := some msg, html_preview := none}, []) ∧
    api_execute code language o = (.errorResp msg, []) := by
  constructor
  · simp [handle_code_execution, hv]
  · simp [api_execute, hv]

/-- Witness for C1 at a concrete denylisted input. -/
theorem dispatch_validation_short_circuit_witness :
    handle_code_execution ("import os".toList) ("python".toList) oracle0
      = ({output := none, error := some (dangerousMsg ("import os".toList)),
          html_preview := none}, []) ∧
    api_execute ("import os".toList) ("python".toList) oracle0
      = (.errorResp (dangerousMsg ("import os".toList)), []) :=
  dispatch_validation_short_circuit _ _ oracle0 _ (by decide)

/-- C2 counterexample: if the scratch file is created but the write into
it raises (e.g. a disk-full `OSError`), `temp_file` is never bound, the
`finally` guard `'temp_file' in locals()` skips the unlink, and the
scratch file remains on disk after the invocation returns. -/
theorem scratch_leak_on_write_failure :
    leftover (execute_python_code ("print(1)".toList)
        { tmp := .writeFailed ("/tmp/x.py".toList) ("No space left on device".toList),
          run := .completed 0 [] [] }).2 = [("/tmp/x.py".toList)] ∧
    [("/tmp/x.py".toList)] ≠ ([] : List (List Char)) := by
  constructor
  · rfl
  · decide

/-- C2 as amended: on every exit path of either runner on which the
scratch source was persisted and its name captured, no scratch file from
the invocation remains (for C, both the source and the binary unlinks are
attempted, each in its own `try`). -/
theorem scratch_cleanup_after_name_capture :
    (∀ (code : List Char) (o : PyOracle) (p : List Char),
        o.tmp = .ok p → leftover (execute_python_code code o).2 = []) ∧
    (∀ (code : List Char) (o : COracle) (p : List Char),
        o.tmp = .ok p → leftover (execute_c_code code o).2 = []) := by
  constructor
  · intro code o p h
    obtain ⟨tmp, run⟩ := o
    dsimp only at h
    subst h
    cases run <;> simp [execute_python_code, leftover, applyEvent, List.filter]
  · intro code o p h
    obtain ⟨tmp, cmp, run⟩ := o
    dsimp only at h
    subst h
    by_cases he : exe_path p = p
    · cases cmp with
      | timedOut em => simp [execute_c_code, leftover, applyEvent, List.filter, he]
      | fileNotFound em => simp [execute_c_code, leftover, applyEvent, List.filter, he]
      | err em => simp [execute_c_code, leftover, applyEvent, List.filter, he]
      | completed rc co ce =>
        rcases eq_or_ne rc 0 with hrc | hrc
        · subst hrc
          cases run <;> simp [execute_c_code, leftover, applyEvent, List.filter, he]
        · simp [execute_c_code, hrc, leftover, applyEvent, List.filter, he]
    · have hb : (exe_path p != p) = true := bne_iff_ne.mpr he
      cases cmp with
      | timedOut em => simp [execute_c_code, leftover, applyEvent, List.filter, hb]
      | fileNotFound em => simp [execute_c_code, leftover, applyEvent, List.filter, hb]
      | err em => simp [execute_c_code, leftover, applyEvent, List.filter, hb]
      | completed rc co ce =>
        rcases eq_or_ne rc 0 with hrc | hrc
        · subst hrc
          cases run <;> simp [execute_c_code, leftover, applyEvent, List.filter, hb]
        · simp [execute_c_code, hrc, leftover, applyEvent, List.filter, hb]

/-- Witness for the amended C2 at concrete inputs. -/
theorem scratch_cleanup_after_name_capture_witness :
    leftover (execute_python_code ("print(1)".toList) oracle0.py).2 = [] ∧
    leftover (execute_c_code ("int main();".toList) oracle0.c).2 = [] :=
  ⟨scratch_cleanup_after_name_capture.1 _ oracle0.py ("/tmp/t.py".toList) rfl,
   scratch_cleanup_after_name_capture.2 _ oracle0.c ("/tmp/t.c".toList) rfl⟩

/-- C3: whenever a child process exceeds the timeout — the python run, the
C compilation, or the compiled-binary run — the runner returns
`(None, "Execution timed out")` and the child was killed. -/
theorem timeout_returns_timed_out_message :
    (∀ (code : List Char) (o : PyOracle) (p em : List Char),
        o.tmp = .ok p → o.run = .timedOut em →
        (execute_python_code code o).1 = (none, some timeoutMsg) ∧
        Event.killed ∈ (execute_python_code code o).2) ∧
    (∀ (code : List Char) (o : COracle) (p em : List Char),
        o.tmp = .ok p → o.compile = .timedOut em →
        (execute_c_code code o).1 = (none, some timeoutMsg) ∧
        Event.killed ∈ (execute_c_code code o).2) ∧
    (∀ (code : List Char) (o : COracle) (p em co ce : List Char),
        o.tmp = .ok p → o.compile = .completed 0 co ce → o.run = .timedOut em →
        (execute_c_code code o).1 = (none, some timeoutMsg) ∧
        Event.killed ∈ (execute_c_code code o).2) := by
  refine ⟨?_, ?_, ?_⟩
  · intro code o p em h1 h2
    obtain ⟨tmp, run⟩ := o
    dsimp only at h1 h2
    subst h1; subst h2
    simp [execute_python_code]
  · intro code o p em h1 h2
    obtain ⟨tmp, cmp, run⟩ := o
    dsimp only at h1 h2
    subst h1; subst h2
    simp [execute_c_code]
  · intro code o p em co ce h1 h2 h3
    obtain ⟨tmp, cmp, run⟩ := o
    dsimp only at h1 h2 h3
    subst h1; subst h2; subst h3
    simp [execute_c_code]

/-- Witness for C3 at concrete timed-out oracles. -/
theorem timeout_returns_timed_out_message_witness :
    ((execute_python_code ("while True: pass".toList)
        { tmp := .ok ("/tmp/a.py".toList), run := .timedOut ("t".toList) }).1
        = (none, some timeoutMsg) ∧
      Event.killed ∈ (execute_python_code ("while True: pass".toList)
        { tmp := .ok ("/tmp/a.py".toList), run := .timedOut ("t".toList) }).2) ∧
    ((execute_c_code ("int main();".toList)
        { tmp := .ok ("/tmp/a.c".toList), compile := .timedOut ("t".toList),
          run := .completed 0 [] [] }).1 = (none, some timeoutMsg) ∧
      Event.killed ∈ (execute_c_code ("int main();".toList)
        { tmp := .ok ("/tmp/a.c".toList), compile := .timedOut ("t".toList),
          run := .completed 0 [] [] }).2) ∧
    ((execute_c_code ("int main();".toList)
        { tmp := .ok ("/tmp/a.c".toList), compile := .completed 0 [] [],
          run := .timedOut ("t".toList) }).1 = (none, some timeoutMsg) ∧
      Event.killed ∈ (execute_c_code ("int main();".toList)
        { tmp := .ok ("/tmp/a.c".toList), compile := .completed 0 [] [],
          run := .timedOut ("t".toList) }).2) :=
  ⟨timeout_returns_timed_out_message.1 _ _ _ _ rfl rfl,
   timeout_returns_timed_out_message.2.1 _ _ _ _ rfl rfl,
   timeout_returns_timed_out_message.2.2 _ _ _ _ _ _ rfl rfl rfl⟩

/-- C4: when C compilation exits non-zero, the runner returns
`(None, compiler stderr)` and the compiled binary is never invoked (no
spawn of the binary's argv appears in the trace). -/
theorem compile_failure_returns_stderr_no_run
    (code : List Char) (o : COracle) (p : List Char) (rc : Int) (co ce : List Char)
    (h1 : o.tmp = .ok p) (h2 : o.compile = .completed rc co ce) (h3 : rc ≠ 0) :
    (execute_c_code code o).1 = (none, some ce) ∧
    Event.spawned [exe_path p] EXECUTION_TIMEOUT ∉ (execute_c_code code o).2 := by
  obtain ⟨tmp, cmp, run⟩ := o
  dsimp only at h1 h2
  subst h1; subst h2
  constructor
  · simp [execute_c_code, h3]
  · simp [execute_c_code, h3, gcc_argv]

/-- Witness for C4 at a concrete failing compilation. -/
theorem compile_failure_returns_stderr_no_run_witness :
    (execute_c_code ("int main();".toList)
        { tmp := .ok ("/tmp/b.c".toList), compile := .completed 1 [] ("boom".toList),
          run := .completed 0 [] [] }).1 = (none, some ("boom".toList)) ∧
    Event.spawned [exe_path ("/tmp/b.c".toList)] EXECUTION_TIMEOUT
      ∉ (execute_c_code ("int main();".toList)
        { tmp := .ok ("/tmp/b.c".toList), compile := .completed 1 [] ("boom".toList),
          run := .completed 0 [] [] }).2 :=
  compile_failure_returns_stderr_no_run _ _ _ _ _ _ rfl rfl (by decide)

/-- C10: `validate_code` ignores its `language` argument entirely, so any
two language tags validate identically; in particular HTML and JavaScript
submissions containing a denylisted substring are rejected. -/
theorem validate_ignores_language :
    (∀ code l1 l2 : List Char, validate_code code l1 = validate_code code l2) ∧
    validate_code ("open(f)".toList) ("html".toList)
      = (false, some (dangerousMsg ("open(".toList))) ∧
    validate_code ("open(f)".toList) ("javascript".toList)
      = (false, some (dangerousMsg ("open(".toList))) :=
  ⟨fun _ _ _ => rfl, by decide, by decide⟩

/-- A code string of 50005 characters containing the denylisted substring
`eval(`. -/
def bigEvalCode : List Char := ("eval(".toList) ++ List.replicate 50000 'a'

/-- C5 counterexample: the length check runs before the denylist scan, so
an over-long code string containing `eval(` fails with the TooLong
message, not with a DeniedPattern message naming the matched pattern. -/
theorem denylist_shadowed_by_too_long :
    validate_code bigEvalCode ("python".toList)
      ≠ (false, some (dangerousMsg ("eval(".toList))) := by
  have hall : bigEvalCode.all isPySpace = false := by
    unfold bigEvalCode
    rw [List.all_append]
    rw [(by decide : ("eval(".toList).all isPySpace = false), Bool.false_and]
  have hlen : bigEvalCode.length = 50005 := by
    unfold bigEvalCode
    rw [List.length_append, List.length_replicate]
    decide
  have hne : bigEvalCode.isEmpty = false := by
    cases h : bigEvalCode with
    | nil => rw [h] at hlen; simp at hlen
    | cons a t => rfl
  have hv : validate_code bigEvalCode ("python".toList) = (false, some tooLongMsg) := by
    unfold validate_code
    rw [strip_isEmpty, hall, hne, hlen]
    simp [MAX_CODE_LENGTH]
  rw [hv]
  decide

/-- C5 as amended: for every code string of length at most
`MAX_CODE_LENGTH` whose lowercased form contains a denylisted substring,
`validate_code` fails naming the first matching pattern in denylist
order. -/
theorem denylist_rejects_within_length
    (code lang p : List Char)
    (hlen : code.length ≤ MAX_CODE_LENGTH)
    (hfind : dangerous_patterns.find? (fun q => hasSubstr (pyLower code) q) = some p) :
    validate_code code lang = (false, some (dangerousMsg p)) := by
  have hmem : p ∈ dangerous_patterns := List.mem_of_find?_eq_some hfind
  have hsub : hasSubstr (pyLower code) p = true := List.find?_some hfind
  obtain ⟨c, hcp, hcs⟩ : ∃ c, c ∈ p ∧ (!isPySpace c) = true :=
    List.any_eq_true.mp (patterns_nonspace p hmem)
  have hcs' : isPySpace c = false := by
    cases hx : isPySpace c
    · rfl
    · rw [hx] at hcs; exact absurd hcs (by decide)
  have hcl : c ∈ pyLower code := hasSubstr_subset _ _ hsub c hcp
  have hall : code.all isPySpace = false := by
    cases hx : code.all isPySpace
    · rfl
    · exfalso
      rw [pyLower_of_all_space code hx] at hcl
      have hw := List.all_eq_true.mp hx c hcl
      rw [hcs'] at hw
      exact Bool.false_ne_true hw
  have hne : code.isEmpty = false := by
    cases hx : code with
    | nil => exfalso; rw [hx] at hcl; simp [pyLower] at hcl
    | cons a t => rfl
  unfold validate_code
  rw [strip_isEmpty, hall, hne]
  rw [if_neg (by simp)]
  rw [if_neg (Nat.not_lt.mpr hlen)]
  rw [hfind]

/-- Witness for the amended C5 at a concrete denylisted input. -/
theorem denylist_rejects_within_length_witness :
    validate_code ("print(eval(1))".toList) ("python".toList)
      = (false, some (dangerousMsg ("eval(".toList))) :=
  denylist_rejects_within_length _ _ _ (by decide) (by decide)

/-- C6 counterexample: the emptiness check (`not code.strip()`) runs
before the length check, so an all-whitespace string of 50001 characters
fails with the EmptyCode message, not with the TooLong message. -/
theorem too_long_shadowed_by_whitespace :
    validate_code (List.replicate 50001 ' ') ("python".toList)
      ≠ (false, some tooLongMsg) := by
  have hall : (List.replicate 50001 ' ').all isPySpace = true := by
    rw [List.all_eq_true]
    intro x hx
    rw [List.eq_of_mem_replicate hx]
    decide
  have hv : validate_code (List.replicate 50001 ' ') ("python".toList)
      = (false, some emptyMsg) := by
    unfold validate_code
    rw [strip_isEmpty, hall, Bool.or_true]
    simp
  rw [hv]
  decide

/-- C6 as amended: every code string longer than `MAX_CODE_LENGTH` that
contains at least one non-whitespace character fails with the TooLong
message. -/
theorem too_long_rejects_nonspace
    (code lang : List Char)
    (hsp : code.all isPySpace = false)
    (hlen : code.length > MAX_CODE_LENGTH) :
    validate_code code lang = (false, some tooLongMsg) := by
  have hne : code.isEmpty = false := by
    cases hx : code with
    | nil => exfalso; rw [hx] at hsp; simp at hsp
    | cons a t => rfl
  unfold validate_code
  rw [strip_isEmpty, hsp, hne]
  rw [if_neg (by simp)]
  rw [if_pos hlen]

/-- Witness for the amended C6 at a concrete over-long input. -/
theorem too_long_rejects_nonspace_witness :
    validate_code (List.replicate 50001 'a') ("python".toList)
      = (false, some tooLongMsg) :=
  too_long_rejects_nonspace _ _
    (by
      rw [(by rfl : (50001 : Nat) = 50000 + 1), List.replicate_succ, List.all_cons,
        (by decide : isPySpace 'a' = false), Bool.false_and])
    (by rw [List.length_replicate]; decide)

/-- C7 counterexample: the JSON API endpoint has no javascript branch —
a validated javascript request falls into the `else` branch and receives
an UnsupportedLanguage error rather than the informational echo. -/
theorem api_javascript_not_echoed :
    (api_execute ("var x = 1".toList) ("javascript".toList) oracle0).1
      = ApiResponse.errorResp (unsupportedMsg ("javascript".toList)) ∧
    ApiResponse.errorResp (unsupportedMsg ("javascript".toList))
      ≠ ApiResponse.execResult (some (jsEchoMsg ("var x = 1".toList))) none true := by
  constructor
  · decide
  · decide

/-- C7 as amended: for a validated javascript request, the form handler
performs no execution and echoes the code as informational text, while
the JSON API endpoint also performs no execution but returns an
`Unsupported language: javascript` error instead of the echo. -/
theorem javascript_echo_web_only
    (code : List Char) (o : ExecOracle)
    (hv : validate_code code ("javascript".toList) = (true, none)) :
    handle_code_execution code ("javascript".toList) o
      = ({output := some (jsEchoMsg code), error := none, html_preview := none}, []) ∧
    api_execute code ("javascript".toList) o
      = (.errorResp (unsupportedMsg ("javascript".toList)), []) := by
  have hv1 : (validate_code code ['j', 'a', 'v', 'a', 's', 'c', 'r', 'i', 'p', 't']).1
      = true := by
    show (validate_code code ("javascript".toList)).1 = true
    rw [hv]
  constructor
  · simp [handle_code_execution, hv1]
  · simp [api_execute, hv1]

/-- Witness for the amended C7 at a concrete javascript input. -/
theorem javascript_echo_web_only_witness :
    handle_code_execution ("console.log(3)".toList) ("javascript".toList) oracle0
      = ({output := some (jsEchoMsg ("console.log(3)".toList)), error := none,
          html_preview := none}, []) ∧
    api_execute ("console.log(3)".toList) ("javascript".toList) oracle0
      = (.errorResp (unsupportedMsg ("javascript".toList)), []) :=
  javascript_echo_web_only _ oracle0 (by decide)

/-- Oracle whose C compilation fails with an empty stderr capture. -/
def oracle8 : ExecOracle :=
  { py := { tmp := .ok ("/tmp/t.py".toList), run := .completed 0 [] [] },
    c := { tmp := .ok ("/tmp/b.c".toList), compile := .completed 1 [] [],
           run := .completed 0 [] [] } }

/-- C8 counterexample: when C compilation fails with an empty stderr, the
compile-failure path returns the raw (empty) compiler stderr without
normalizing it to `None`, so the API result has an empty error field with
`success = false` — refuting "success iff stderr empty or absent". -/
theorem success_false_with_empty_error :
    (api_execute ("int main();".toList) ("c".toList) oracle8).1
      = ApiResponse.execResult none (some []) false ∧
    ¬((false = true) ↔
        ((some ([] : List Char)) = none ∨ (some ([] : List Char)) = some [])) := by
  constructor
  · decide
  · decide

/-- C8 as amended: for every `execResult` response of the API endpoint,
`success` is true exactly when the error field is absent (`None`); for
python-language requests the error field additionally is never the empty
string, so there "empty or absent" and "absent" coincide. -/
theorem success_iff_error_absent
    (code lang : List Char) (o : ExecOracle)
    (out err : Option (List Char)) (s : Bool) (tr : List Event)
    (h : api_execute code lang o = (.execResult out err s, tr)) :
    (s = true ↔ err = none) ∧ (lang = ("python".toList) → err ≠ some []) := by
  simp only [api_execute] at h
  by_cases h1 : (validate_code code lang).1 = false
  · rw [if_pos h1] at h
    exact absurd h (by simp)
  · rw [if_neg h1] at h
    by_cases h2 : lang = ("python".toList)
    · rw [if_pos h2] at h
      rw [Prod.mk.injEq, ApiResponse.execResult.injEq] at h
      obtain ⟨⟨_, he, hs⟩, _⟩ := h
      subst he; subst hs
      constructor
      · exact Option.isNone_iff_eq_none
      · intro _
        exact py_err_ne_empty code o.py
    · rw [if_neg h2] at h
      by_cases h3 : lang = ("c".toList)
      · rw [if_pos h3] at h
        rw [Prod.mk.injEq, ApiResponse.execResult.injEq] at h
        obtain ⟨⟨_, he, hs⟩, _⟩ := h
        subst he; subst hs
        constructor
        · exact Option.isNone_iff_eq_none
        · intro hp
          exact absurd (h3.symm.trans hp) (by decide)
      · rw [if_neg h3] at h
        by_cases h4 : lang = ("html".toList)
        · rw [if_pos h4] at h
          exact absurd h (by simp)
        · rw [if_neg h4] at h
          exact absurd h (by simp)

/-- Witness for the amended C8 at a concrete python request. -/
theorem success_iff_error_absent_witness :
    ((true = true ↔ (none : Option (List Char)) = none) ∧
      (("python".toList : List Char) = ("python".toList) →
        (none : Option (List Char)) ≠ some [])) :=
  success_iff_error_absent ("print(1)".toList) ("python".toList) oracle0
    (some []) none true
    [Event.fileCreated ("/tmp/t.py".toList),
     Event.spawned (python_argv ("/tmp/t.py".toList)) EXECUTION_TIMEOUT,
     Event.unlink ("/tmp/t.py".toList)]
    (by decide)

/-- Oracle for the desktop counterexample run. -/
def oracle9py : PyOracle :=
  { tmp := .ok ("/tmp/scratch.py".toList), run := .completed 0 [] [] }

/-- C9 counterexample: the desktop Run action spawns the interpreter even
for code the Execution Core's validator rejects, and does so with its own
hard-coded 5-second timeout rather than the core's configured 10 — so it
does not invoke the core's validate-then-execute contract. -/
theorem desktop_run_skips_validation :
    validate_code ("import os".toList) ("python".toList)
      = (false, some (dangerousMsg ("import os".toList))) ∧
    (FuturIDE.run_python ("import os".toList) oracle9py).2
      = [Event.fileCreated ("/tmp/scratch.py".toList),
         Event.spawned [FuturIDE.sys_executable, ("/tmp/scratch.py".toList)]
           FuturIDE.desktop_timeout,
         Event.unlink ("/tmp/scratch.py".toList)] ∧
    FuturIDE.desktop_timeout ≠ EXECUTION_TIMEOUT := by
  refine ⟨by decide, by decide, by decide⟩

/-- C9 as amended: the desktop Run action bypasses the Execution Core —
for every code string, without any validation, `run_python` writes the
scratch file, invokes the interpreter directly with the hard-coded
5-second timeout, and renders stdout (or stderr) into the output
label. -/
theorem desktop_run_direct_subprocess
    (code : List Char) (o : PyOracle) (fname : List Char) (rc : Int)
    (out err : List Char)
    (h1 : o.tmp = .ok fname) (h2 : o.run = .completed rc out err) :
    FuturIDE.run_python code o
      = (.label (if err.isEmpty then FuturIDE.outputLabel out
                 else FuturIDE.errorLabel err),
         [Event.fileCreated fname,
          Event.spawned [FuturIDE.sys_executable, fname] FuturIDE.desktop_timeout,
          Event.unlink fname]) := by
  obtain ⟨tmp, run⟩ := o
  dsimp only at h1 h2
  subst h1; subst h2
  rfl

/-- Witness for the amended C9 at a concrete denylisted input. -/
theorem desktop_run_direct_subprocess_witness :
    FuturIDE.run_python ("import os".toList)
      { tmp := .ok ("/tmp/s.py".toList), run := .completed 0 ("ok".toList) [] }
      = (.label (if ([] : List Char).isEmpty then FuturIDE.outputLabel ("ok".toList)
                 else FuturIDE.errorLabel []),
         [Event.fileCreated ("/tmp/s.py".toList),
          Event.spawned [FuturIDE.sys_executable, ("/tmp/s.py".toList)]
            FuturIDE.desktop_timeout,
          Event.unlink ("/tmp/s.py".toList)]) :=
  desktop_run_direct_subprocess _ _ _ _ _ _ rfl rfl
